import Mathlib

/-!
Shallow embedding of the GKE MCP tool server (`server.py`) and a
verification of its specified behavior.

Modelling conventions:
* JSON-shaped Python values (tool results, the generated manifest) are the
  inductive `Val`; a Python dict literal becomes `Val.obj` with its key/value
  pairs in source order.
* Calls into external provider SDKs (cluster manager, recommender, logging,
  Kubernetes client) are stub functions passed as parameters, returning
  `Except PyErr` results; a raised Python exception is the `Except.error`
  branch carrying `str(e)` as `msg`.
* `subprocess.CalledProcessError` carries the exit code and captured stderr.
* Python f-string interpolation of an `Option String` renders `none` as the
  literal `"None"`, as Python renders the `None` object.
* Handlers that interact with a provider return the list of provider calls
  they issue along with the result value, so that single-call properties
  (no polling, no extra pagination requests issued by this code) are visible.
* `logger` output is modelled as a returned list of messages where a claim
  depends on it.
-/

set_option maxRecDepth 4000
set_option linter.unusedVariables false

namespace Server

/-- JSON-like value: the shape of every tool result and of the manifest. -/
inductive Val where
  | str : String → Val
  | int : Int → Val
  | list : List Val → Val
  | obj : List (String × Val) → Val
deriving Repr

/-- Generic Python exception as observed by an `except Exception as e` block:
`msg` is `str(e)`. -/
structure PyErr where
  msg : String
deriving Repr, DecidableEq

/-- subprocess.CalledProcessError raised by `subprocess.run(..., check=True)`
on a non-zero exit: exit code and captured stderr (already decoded). -/
structure CalledProcessError where
  returncode : Int
  stderr : String
deriving Repr, DecidableEq

/-- Modelled `str(e)` of a CalledProcessError (Python stdlib formatting,
external to the repository; the claims only use that it is some string). -/
def CalledProcessError.pyStr (e : CalledProcessError) : String :=
  "Command returned non-zero exit status " ++ toString e.returncode ++ "."

/-- Process environment: the two configuration variables read by the server. -/
structure Env where
  google_cloud_project : Option String
  google_cloud_location : Option String
deriving Repr

/-- os.getenv("GOOGLE_CLOUD_PROJECT") -/
def get_project_id (env : Env) : Option String :=
  env.google_cloud_project

/-- os.getenv("GOOGLE_CLOUD_LOCATION") -/
def get_location (env : Env) : Option String :=
  env.google_cloud_location

/-- Python f-string rendering of an optional string: `None` renders as the
four-character literal "None". -/
def pyFormatOpt : Option String → String
  | none => "None"
  | some s => s

/-- The uniform error envelope `{"error": <message>}`. -/
def errEnv (m : String) : Val :=
  Val.obj [("error", Val.str m)]

/-- Top-level keys of an object value (empty for non-objects). -/
def topKeys : Val → List String
  | Val.obj kvs => kvs.map Prod.fst
  | _ => []

/-- Decides whether a value is exactly an error envelope `{"error": <string>}`. -/
def isErrEnv : Val → Bool
  | Val.obj [(k, Val.str _)] => k == "error"
  | _ => false

/-- Path lookup into nested object values. -/
def dig : Val → List String → Option Val
  | v, [] => some v
  | Val.obj kvs, k :: ks =>
    match kvs.lookup k with
    | some v => dig v ks
    | none => none
  | _, _ => none

/-- container_v1 node pool: only the name is projected by the server. -/
structure NodePool where
  name : String
deriving Repr, DecidableEq

/-- container_v1.Cluster, with the fields the server reads or sets.
Constructing `container_v1.Cluster(name=..., initial_node_count=...)` leaves
the remaining proto fields at their defaults. -/
structure Cluster where
  name : String := ""
  initial_node_count : Int := 0
  status : String := ""
  endpoint : String := ""
  node_pools : List NodePool := []
  location : String := ""
deriving Repr, DecidableEq

/-- operation proto returned by create_cluster: the async operation handle. -/
structure Operation where
  name : String
deriving Repr, DecidableEq

/-- One create_cluster provider call: `client.create_cluster(parent=, cluster=)`. -/
structure CreateClusterRequest where
  parent : String
  cluster : Cluster
deriving Repr, DecidableEq

/-- Tool `cluster_toolkit(project_id, region, cluster_name)`:
builds parent and a one-node cluster object, submits one create_cluster call,
returns `{"operation": op.name}` on success and `{"error": str(e)}` on a
raised provider exception. The first component is the list of provider calls
issued. -/
def cluster_toolkit (create_cluster : CreateClusterRequest → Except PyErr Operation)
    (project_id region cluster_name : String) : List CreateClusterRequest × Val :=
  let parent := "projects/" ++ project_id ++ "/locations/" ++ region
  let cluster : Cluster := { name := cluster_name, initial_node_count := 1 }
  let req : CreateClusterRequest := { parent := parent, cluster := cluster }
  match create_cluster req with
  | Except.ok op => ([req], Val.obj [("operation", Val.str op.name)])
  | Except.error e => ([req], errEnv e.msg)

/-- Tool `list_clusters()`: lists clusters under the configured
project/location, projecting names; error envelope on provider exception. -/
def list_clusters (env : Env) (provider : String → Except PyErr (List Cluster)) : Val :=
  let project_id := pyFormatOpt (get_project_id env)
  let region := pyFormatOpt (get_location env)
  let parent := "projects/" ++ project_id ++ "/locations/" ++ region
  match provider parent with
  | Except.ok cs => Val.obj [("clusters", Val.list (cs.map (fun c => Val.str c.name)))]
  | Except.error e => errEnv e.msg

/-- Fully qualified cluster resource name built by `get_cluster`. -/
def cluster_resource_name (env : Env) (cluster_name : String) : String :=
  "projects/" ++ pyFormatOpt (get_project_id env) ++ "/locations/" ++
    pyFormatOpt (get_location env) ++ "/clusters/" ++ cluster_name

/-- Tool `get_cluster(cluster_name)`: fetches one cluster and projects the
five documented fields; error envelope on provider exception. -/
def get_cluster (env : Env) (provider : String → Except PyErr Cluster)
    (cluster_name : String) : Val :=
  match provider (cluster_resource_name env cluster_name) with
  | Except.ok cluster =>
      Val.obj [("name", Val.str cluster.name),
               ("status", Val.str cluster.status),
               ("endpoint", Val.str cluster.endpoint),
               ("node_pools", Val.list (cluster.node_pools.map (fun np => Val.str np.name))),
               ("location", Val.str cluster.location)]
  | Except.error e => errEnv e.msg

/-- Tool `giq_generate_manifest(model_name, replicas=1)`: pure template
instantiation; no provider call, no failure branch. -/
def giq_generate_manifest (env : Env) (model_name : String) (replicas : Int) : Val :=
  let project_id := pyFormatOpt (get_project_id env)
  Val.obj [
    ("apiVersion", Val.str "apps/v1"),
    ("kind", Val.str "Deployment"),
    ("metadata", Val.obj [("name", Val.str (model_name ++ "-inference"))]),
    ("spec", Val.obj [
      ("replicas", Val.int replicas),
      ("selector", Val.obj [("matchLabels", Val.obj [("app", Val.str model_name)])]),
      ("template", Val.obj [
        ("metadata", Val.obj [("labels", Val.obj [("app", Val.str model_name)])]),
        ("spec", Val.obj [
          ("containers", Val.list [
            Val.obj [
              ("name", Val.str model_name),
              ("image", Val.str ("gcr.io/" ++ project_id ++ "/" ++ model_name ++ ":latest")),
              ("ports", Val.list [Val.obj [("containerPort", Val.int 8080)]])
            ]])
        ])
      ])
    ])
  ]

/-- recommender_v1 recommendation: only the description is projected. -/
structure Recommendation where
  description : String
deriving Repr, DecidableEq

/-- Tool `list_recommendations(recommender_id)`: lists recommendation
descriptions under the configured project/location; error envelope on
provider exception. -/
def list_recommendations (env : Env) (provider : String → Except PyErr (List Recommendation))
    (recommender_id : String) : Val :=
  let project_id := pyFormatOpt (get_project_id env)
  let location := pyFormatOpt (get_location env)
  let parent := "projects/" ++ project_id ++ "/locations/" ++ location ++
    "/recommenders/" ++ recommender_id
  match provider parent with
  | Except.ok recs =>
      Val.obj [("recommendations", Val.list (recs.map (fun r => Val.str r.description)))]
  | Except.error e => errEnv e.msg

/-- Log entry yielded by `client.list_entries`; `payload` holds the entry
payload already in its Python string form, as `str(e.payload)` produces it. -/
structure LogEntry where
  payload : String
deriving Repr, DecidableEq

/-- One `client.list_entries(filter_=..., page_size=...)` provider call. -/
structure ListEntriesCall where
  filter_arg : String
  page_size : Int
deriving Repr, DecidableEq

/-- Tool `query_logs(query, limit=10)`: issues one list_entries call with
`page_size=limit`, stringifies each yielded payload; error envelope on
provider exception. First component is the list of provider calls issued. -/
def query_logs (env : Env) (list_entries : ListEntriesCall → Except PyErr (List LogEntry))
    (query : String) (limit : Int) : List ListEntriesCall × Val :=
  let call : ListEntriesCall := { filter_arg := query, page_size := limit }
  match list_entries call with
  | Except.ok entries =>
      ([call], Val.obj [("logs", Val.list (entries.map (fun e => Val.str e.payload)))])
  | Except.error e => ([call], errEnv e.msg)

/-- Tool `get_log_schema(log_type)`: pure lookup in a fixed in-memory dict of
three schemas, with the unknown-type error value as `.get` default. -/
def get_log_schema (log_type : String) : Val :=
  let schemas : List (String × Val) := [
    ("k8s_event_logs", Val.obj [("fields", Val.list
      [Val.str "event_type", Val.str "reason", Val.str "message", Val.str "involved_object"])]),
    ("k8s_audit_logs", Val.obj [("fields", Val.list
      [Val.str "method_name", Val.str "resource_name", Val.str "response_status"])]),
    ("k8s_application_logs", Val.obj [("fields", Val.list
      [Val.str "severity", Val.str "message", Val.str "timestamp"])])
  ]
  match schemas.lookup log_type with
  | some v => v
  | none => errEnv "Unknown log type"

/-- Kubernetes object metadata: only `name` is projected by the server. -/
structure ObjectMeta where
  name : String
deriving Repr, DecidableEq

/-- kubernetes V1Namespace item. -/
structure V1Namespace where
  metadata : ObjectMeta
deriving Repr, DecidableEq

/-- kubernetes V1Pod item. -/
structure V1Pod where
  metadata : ObjectMeta
deriving Repr, DecidableEq

/-- Stubbed kubernetes CoreV1Api client: the outcomes of its list calls.
A raised Kubernetes API exception is the `Except.error` branch. -/
structure CoreV1Api where
  list_namespace_items : Except PyErr (List V1Namespace)
  list_namespaced_pod_items : String → Except PyErr (List V1Pod)

/-- Helper `get_k8s_client(cluster_name)`: runs the gcloud credential
bootstrap (`bootstrap` is the outcome of `subprocess.run(..., check=True)`),
then loads kubeconfig and returns the client. On a CalledProcessError it
logs the captured stderr and re-raises (`Except.error`), returning no error
envelope itself. First component is the list of logged messages. -/
def get_k8s_client (env : Env) (bootstrap : Except CalledProcessError Unit)
    (api : CoreV1Api) (cluster_name : String) :
    List String × Except CalledProcessError CoreV1Api :=
  let project_id := pyFormatOpt (get_project_id env)
  let region := pyFormatOpt (get_location env)
  let fetch_log := "Fetching kubeconfig for cluster " ++ cluster_name ++ " in " ++
    project_id ++ "/" ++ region
  match bootstrap with
  | Except.ok _ => ([fetch_log], Except.ok api)
  | Except.error e =>
      ([fetch_log,
        "Failed to get credentials for cluster " ++ cluster_name ++ ": " ++ e.stderr],
       Except.error e)

/-- Tool `list_namespaces(cluster_name)`: builds a client via
`get_k8s_client`, lists namespaces, projects names; any exception —
including the re-raised bootstrap failure — is caught into the envelope. -/
def list_namespaces (env : Env) (bootstrap : Except CalledProcessError Unit)
    (api : CoreV1Api) (cluster_name : String) : Val :=
  match (get_k8s_client env bootstrap api cluster_name).2 with
  | Except.error e => errEnv e.pyStr
  | Except.ok v1 =>
    match v1.list_namespace_items with
    | Except.ok items =>
        Val.obj [("namespaces", Val.list (items.map (fun ns => Val.str ns.metadata.name)))]
    | Except.error e => errEnv e.msg

/-- Tool `get_pods(cluster_name, namespace="default")`: same pattern as
`list_namespaces` for pods of one namespace. -/
def get_pods (env : Env) (bootstrap : Except CalledProcessError Unit)
    (api : CoreV1Api) (cluster_name : String) (ns : String) : Val :=
  match (get_k8s_client env bootstrap api cluster_name).2 with
  | Except.error e => errEnv e.pyStr
  | Except.ok v1 =>
    match v1.list_namespaced_pod_items ns with
    | Except.ok pods =>
        Val.obj [("pods", Val.list (pods.map (fun pod => Val.str pod.metadata.name)))]
    | Except.error e => errEnv e.msg

/-- asyncio task as the shutdown handler observes it: whether it is already
done, and whether cancellation has been requested on it (`Task.cancel()`). -/
structure PyTask where
  done : Bool
  cancel_requested : Bool
deriving Repr, DecidableEq

/-- Task.cancel(): requests cancellation. -/
def PyTask.cancel (t : PyTask) : PyTask :=
  { t with cancel_requested := true }

/-- Signal handler `shutdown(loop)`: collects the not-yet-done tasks of the
loop and calls `cancel()` on each; done tasks are not touched. The result is
the loop task set after the handler ran. -/
def shutdown (tasks : List PyTask) : List PyTask :=
  tasks.map (fun t => if t.done then t else t.cancel)

/-- Outcome of `loop.run_until_complete(mcp.run_async(...))` as seen by the
try block of `main`. -/
inductive RunOutcome where
  | completed
  | keyboard_interrupt
  | cancelled_error
  | other_failure (msg : String)
deriving Repr, DecidableEq

/-- Observable effect of leaving `main`: whether the loop got closed and
which exception, if any, escaped unhandled. -/
structure MainExit where
  loop_closed : Bool
  unhandled : Option String
deriving Repr, DecidableEq

/-- try/except/finally tail of `main`: KeyboardInterrupt and CancelledError
are caught and logged; the finally block always closes the loop; any other
exception escapes after the finally block ran. -/
def main_exit (outcome : RunOutcome) : MainExit :=
  match outcome with
  | RunOutcome.completed => { loop_closed := true, unhandled := none }
  | RunOutcome.keyboard_interrupt => { loop_closed := true, unhandled := none }
  | RunOutcome.cancelled_error => { loop_closed := true, unhandled := none }
  | RunOutcome.other_failure m => { loop_closed := true, unhandled := some m }

/-- Helper: full case analysis of `get_log_schema` over its input. -/
theorem log_schema_cases (t : String) :
    get_log_schema t =
      (if t = "k8s_event_logs" then
        Val.obj [("fields", Val.list
          [Val.str "event_type", Val.str "reason", Val.str "message", Val.str "involved_object"])]
      else if t = "k8s_audit_logs" then
        Val.obj [("fields", Val.list
          [Val.str "method_name", Val.str "resource_name", Val.str "response_status"])]
      else if t = "k8s_application_logs" then
        Val.obj [("fields", Val.list
          [Val.str "severity", Val.str "message", Val.str "timestamp"])]
      else errEnv "Unknown log type") := by
  simp only [get_log_schema, List.lookup]
  split_ifs with h1 h2 h3
  · subst h1; rfl
  · subst h2; rfl
  · subst h3; rfl
  · have e1 : (t == "k8s_event_logs") = false := beq_eq_false_iff_ne.mpr h1
    have e2 : (t == "k8s_audit_logs") = false := beq_eq_false_iff_ne.mpr h2
    have e3 : (t == "k8s_application_logs") = false := beq_eq_false_iff_ne.mpr h3
    simp only [e1, e2, e3]

/-- Claim C2: for every model name and replica count (and configured project),
`giq_generate_manifest` deterministically produces a deployment whose
metadata.name is `<model_name>-inference`, whose spec.replicas is the
requested count, whose pod template has exactly one container, named after
the model, labeled `app: <model_name>`, exposing container port 8080, with
the image path derived from the configured project id and the model name;
in particular for "resnet50" with 3 replicas. -/
theorem c2_manifest_fields (env : Env) (model_name : String) (replicas : Int) :
    dig (giq_generate_manifest env model_name replicas) ["metadata", "name"] =
      some (Val.str (model_name ++ "-inference")) ∧
    dig (giq_generate_manifest env model_name replicas) ["spec", "replicas"] =
      some (Val.int replicas) ∧
    dig (giq_generate_manifest env model_name replicas) ["spec", "template", "spec", "containers"] =
      some (Val.list [Val.obj [
        ("name", Val.str model_name),
        ("image", Val.str ("gcr.io/" ++ pyFormatOpt (get_project_id env) ++ "/" ++
          model_name ++ ":latest")),
        ("ports", Val.list [Val.obj [("containerPort", Val.int 8080)]])]]) ∧
    dig (giq_generate_manifest env model_name replicas)
        ["spec", "template", "metadata", "labels", "app"] = some (Val.str model_name) ∧
    dig (giq_generate_manifest env "resnet50" 3) ["metadata", "name"] =
      some (Val.str "resnet50-inference") ∧
    dig (giq_generate_manifest env "resnet50" 3) ["spec", "replicas"] = some (Val.int 3) :=
  ⟨rfl, rfl, rfl, rfl, rfl, rfl⟩

/-- Claim C9: the generated deployment selector (spec.selector.matchLabels)
is exactly the pod template labels (spec.template.metadata.labels), both
being the single-entry mapping app: model_name. -/
theorem c9_selector_matches_template_labels (env : Env) (model_name : String) (replicas : Int) :
    dig (giq_generate_manifest env model_name replicas) ["spec", "selector", "matchLabels"] =
      dig (giq_generate_manifest env model_name replicas)
        ["spec", "template", "metadata", "labels"] ∧
    dig (giq_generate_manifest env model_name replicas) ["spec", "selector", "matchLabels"] =
      some (Val.obj [("app", Val.str model_name)]) :=
  ⟨rfl, rfl⟩

/-- Claim C10: with GOOGLE_CLOUD_PROJECT unset, `giq_generate_manifest`
still returns a manifest (never an error envelope), with the container image
rendered as the literal string gcr.io/None/<model_name>:latest. -/
theorem c10_missing_project_renders_none (model_name : String) (replicas : Int)
    (loc : Option String) :
    topKeys (giq_generate_manifest { google_cloud_project := none, google_cloud_location := loc }
        model_name replicas) = ["apiVersion", "kind", "metadata", "spec"] ∧
    isErrEnv (giq_generate_manifest { google_cloud_project := none, google_cloud_location := loc }
        model_name replicas) = false ∧
    dig (giq_generate_manifest { google_cloud_project := none, google_cloud_location := loc }
        model_name replicas) ["spec", "template", "spec", "containers"] =
      some (Val.list [Val.obj [
        ("name", Val.str model_name),
        ("image", Val.str ("gcr.io/None/" ++ model_name ++ ":latest")),
        ("ports", Val.list [Val.obj [("containerPort", Val.int 8080)]])]]) :=
  ⟨rfl, rfl, rfl⟩

/-- Claim C3: `get_log_schema` is a pure lookup in a fixed table of exactly
the three known log categories; each known type yields its fixed schema and
every other input yields the fixed value with the error message Unknown log
type; no provider stub appears in its type, so it performs no network access
and, being a total function, raises nothing. -/
theorem c3_log_schema_fixed_table (log_type : String) :
    get_log_schema log_type =
      (if log_type = "k8s_event_logs" then
        Val.obj [("fields", Val.list
          [Val.str "event_type", Val.str "reason", Val.str "message", Val.str "involved_object"])]
      else if log_type = "k8s_audit_logs" then
        Val.obj [("fields", Val.list
          [Val.str "method_name", Val.str "resource_name", Val.str "response_status"])]
      else if log_type = "k8s_application_logs" then
        Val.obj [("fields", Val.list
          [Val.str "severity", Val.str "message", Val.str "timestamp"])]
      else errEnv "Unknown log type") :=
  log_schema_cases log_type

/-- Claim C4: when the credential-bootstrap command exits non-zero,
`get_k8s_client` logs the captured stderr and re-raises the failure (its
result is the propagated error, not an envelope), while `list_namespaces`
and `get_pods` each catch that propagated failure and convert it into the
uniform error envelope. -/
theorem c4_bootstrap_failure_reraised (env : Env) (api : CoreV1Api)
    (cluster_name ns : String) (e : CalledProcessError) :
    (get_k8s_client env (Except.error e) api cluster_name).2 = Except.error e ∧
    (get_k8s_client env (Except.error e) api cluster_name).1 =
      ["Fetching kubeconfig for cluster " ++ cluster_name ++ " in " ++
         pyFormatOpt (get_project_id env) ++ "/" ++ pyFormatOpt (get_location env),
       "Failed to get credentials for cluster " ++ cluster_name ++ ": " ++ e.stderr] ∧
    list_namespaces env (Except.error e) api cluster_name = errEnv e.pyStr ∧
    get_pods env (Except.error e) api cluster_name ns = errEnv e.pyStr :=
  ⟨rfl, rfl, rfl, rfl⟩

/-- Claim C5: whenever the provider call succeeds, `get_cluster` returns a
mapping with exactly the five keys name, status, endpoint, node_pools,
location, node_pools being the list of node-pool names; on a provider
failure it returns the error envelope. -/
theorem c5_get_cluster_projection (env : Env) (provider : String → Except PyErr Cluster)
    (cluster_name : String) :
    (∀ c, provider (cluster_resource_name env cluster_name) = Except.ok c →
      get_cluster env provider cluster_name =
        Val.obj [("name", Val.str c.name), ("status", Val.str c.status),
                 ("endpoint", Val.str c.endpoint),
                 ("node_pools", Val.list (c.node_pools.map (fun np => Val.str np.name))),
                 ("location", Val.str c.location)] ∧
      topKeys (get_cluster env provider cluster_name) =
        ["name", "status", "endpoint", "node_pools", "location"]) ∧
    (∀ e, provider (cluster_resource_name env cluster_name) = Except.error e →
      get_cluster env provider cluster_name = errEnv e.msg) := by
  constructor
  · intro c h
    have hc : get_cluster env provider cluster_name =
        Val.obj [("name", Val.str c.name), ("status", Val.str c.status),
                 ("endpoint", Val.str c.endpoint),
                 ("node_pools", Val.list (c.node_pools.map (fun np => Val.str np.name))),
                 ("location", Val.str c.location)] := by
      simp only [get_cluster, h]
    exact ⟨hc, by rw [hc]; rfl⟩
  · intro e h
    simp only [get_cluster, h]

/-- Witness for C5 at a concrete cluster and a concrete provider failure. -/
theorem c5_get_cluster_projection_witness :
    get_cluster { google_cloud_project := some "p", google_cloud_location := some "l" }
      (fun _ => Except.ok { name := "c1", status := "RUNNING", endpoint := "1.2.3.4",
                            node_pools := [{ name := "np1" }], location := "us-central1" }) "c1" =
      Val.obj [("name", Val.str "c1"), ("status", Val.str "RUNNING"),
               ("endpoint", Val.str "1.2.3.4"),
               ("node_pools", Val.list [Val.str "np1"]),
               ("location", Val.str "us-central1")] ∧
    get_cluster { google_cloud_project := some "p", google_cloud_location := some "l" }
      (fun _ => Except.error { msg := "boom" }) "c1" = errEnv "boom" := by
  constructor
  · exact ((c5_get_cluster_projection
      { google_cloud_project := some "p", google_cloud_location := some "l" }
      (fun _ => Except.ok { name := "c1", status := "RUNNING", endpoint := "1.2.3.4",
                            node_pools := [{ name := "np1" }], location := "us-central1" })
      "c1").1
      { name := "c1", status := "RUNNING", endpoint := "1.2.3.4",
        node_pools := [{ name := "np1" }], location := "us-central1" } rfl).1
  · exact (c5_get_cluster_projection
      { google_cloud_project := some "p", google_cloud_location := some "l" }
      (fun _ => Except.error { msg := "boom" }) "c1").2
      { msg := "boom" } rfl

/-- Claim C8: `cluster_toolkit` submits exactly one cluster-creation request,
whose cluster object has initial node count 1, and on success immediately
returns the async operation handle; the call list shows no further provider
interaction (no polling). -/
theorem c8_single_node_create_request
    (create : CreateClusterRequest → Except PyErr Operation)
    (project_id region cluster_name : String) :
    (cluster_toolkit create project_id region cluster_name).1 =
      [{ parent := "projects/" ++ project_id ++ "/locations/" ++ region,
         cluster := { name := cluster_name, initial_node_count := 1 } }] ∧
    (∀ op, create { parent := "projects/" ++ project_id ++ "/locations/" ++ region,
                    cluster := { name := cluster_name, initial_node_count := 1 } } =
        Except.ok op →
      (cluster_toolkit create project_id region cluster_name).2 =
        Val.obj [("operation", Val.str op.name)]) := by
  constructor
  · simp only [cluster_toolkit]
    split <;> rfl
  · intro op h
    simp only [cluster_toolkit, h]

/-- Witness for C8 at a concrete successful provider stub. -/
theorem c8_single_node_create_request_witness :
    (cluster_toolkit (fun _ => Except.ok { name := "op-1" }) "p" "r" "c").2 =
      Val.obj [("operation", Val.str "op-1")] ∧
    (cluster_toolkit (fun _ => Except.ok { name := "op-1" }) "p" "r" "c").1 =
      [{ parent := "projects/p/locations/r",
         cluster := { name := "c", initial_node_count := 1 } }] := by
  constructor
  · exact (c8_single_node_create_request (fun _ => Except.ok { name := "op-1" }) "p" "r" "c").2
      { name := "op-1" } rfl
  · exact (c8_single_node_create_request (fun _ => Except.ok { name := "op-1" }) "p" "r" "c").1

/-- Claim C6: `query_logs` issues exactly one list_entries call, with the
query as filter and the limit as page size; on success it returns one
stringified payload per entry of that single page, so whenever the page
respects the requested page size the result carries at most `limit` logs. -/
theorem c6_query_logs_single_page (env : Env)
    (list_entries : ListEntriesCall → Except PyErr (List LogEntry))
    (query : String) (limit : Int) :
    (query_logs env list_entries query limit).1 =
      [{ filter_arg := query, page_size := limit }] ∧
    (∀ entries, list_entries { filter_arg := query, page_size := limit } = Except.ok entries →
      (query_logs env list_entries query limit).2 =
        Val.obj [("logs", Val.list (entries.map (fun e => Val.str e.payload)))] ∧
      ((entries.length : Int) ≤ limit →
        ∃ logs, (query_logs env list_entries query limit).2 =
            Val.obj [("logs", Val.list logs)] ∧ (logs.length : Int) ≤ limit)) := by
  constructor
  · simp only [query_logs]
    split <;> rfl
  · intro entries h
    have hq : (query_logs env list_entries query limit).2 =
        Val.obj [("logs", Val.list (entries.map (fun e => Val.str e.payload)))] := by
      simp only [query_logs, h]
    refine ⟨hq, fun hle => ⟨entries.map (fun e => Val.str e.payload), hq, ?_⟩⟩
    simpa using hle

/-- Witness for C6 at a concrete two-entry page with limit 3. -/
theorem c6_query_logs_single_page_witness :
    (query_logs { google_cloud_project := some "p", google_cloud_location := some "l" }
      (fun _ => Except.ok [{ payload := "a" }, { payload := "b" }]) "sev>=ERROR" 3).2 =
      Val.obj [("logs", Val.list [Val.str "a", Val.str "b"])] ∧
    ∃ logs, (query_logs { google_cloud_project := some "p", google_cloud_location := some "l" }
      (fun _ => Except.ok [{ payload := "a" }, { payload := "b" }]) "sev>=ERROR" 3).2 =
        Val.obj [("logs", Val.list logs)] ∧ (logs.length : Int) ≤ 3 := by
  have h := (c6_query_logs_single_page
    { google_cloud_project := some "p", google_cloud_location := some "l" }
    (fun _ => Except.ok [{ payload := "a" }, { payload := "b" }]) "sev>=ERROR" 3).2
    [{ payload := "a" }, { payload := "b" }] rfl
  exact ⟨h.1, h.2 (by decide)⟩

/-- Claim C1 counterexample: it is not the case that every error envelope a
handler returns carries a non-empty message — a provider stub whose raised
exception stringifies to the empty string makes `get_cluster` return the
envelope with the empty message. -/
theorem c1_counterexample :
    ¬ (∀ (provider : String → Except PyErr Cluster) (env : Env) (cluster_name m : String),
        get_cluster env provider cluster_name = errEnv m → m ≠ "") := by
  intro h
  exact h (fun _ => Except.error { msg := "" })
    { google_cloud_project := some "p", google_cloud_location := some "l" } "demo" "" rfl rfl

/-- Claim C1 (amended): every registered tool handler, on every input and
every provider outcome, returns exactly one of its success payload shape or
the uniform error envelope carrying the stringified exception (which may be
empty when the exception stringifies to the empty string); being total
functions, the handlers let no exception propagate. -/
theorem c1_amended_uniform_results :
    (∀ create project_id region cluster_name,
      topKeys (cluster_toolkit create project_id region cluster_name).2 = ["operation"] ∨
      ∃ m, (cluster_toolkit create project_id region cluster_name).2 = errEnv m) ∧
    (∀ env provider, topKeys (list_clusters env provider) = ["clusters"] ∨
      ∃ m, list_clusters env provider = errEnv m) ∧
    (∀ env provider cluster_name,
      topKeys (get_cluster env provider cluster_name) =
        ["name", "status", "endpoint", "node_pools", "location"] ∨
      ∃ m, get_cluster env provider cluster_name = errEnv m) ∧
    (∀ env model_name replicas,
      topKeys (giq_generate_manifest env model_name replicas) =
        ["apiVersion", "kind", "metadata", "spec"]) ∧
    (∀ env provider recommender_id,
      topKeys (list_recommendations env provider recommender_id) = ["recommendations"] ∨
      ∃ m, list_recommendations env provider recommender_id = errEnv m) ∧
    (∀ env list_entries query limit,
      topKeys (query_logs env list_entries query limit).2 = ["logs"] ∨
      ∃ m, (query_logs env list_entries query limit).2 = errEnv m) ∧
    (∀ log_type, topKeys (get_log_schema log_type) = ["fields"] ∨
      ∃ m, get_log_schema log_type = errEnv m) ∧
    (∀ env bootstrap api cluster_name,
      topKeys (list_namespaces env bootstrap api cluster_name) = ["namespaces"] ∨
      ∃ m, list_namespaces env bootstrap api cluster_name = errEnv m) ∧
    (∀ env bootstrap api cluster_name ns,
      topKeys (get_pods env bootstrap api cluster_name ns) = ["pods"] ∨
      ∃ m, get_pods env bootstrap api cluster_name ns = errEnv m) := by
  refine ⟨?_, ?_, ?_, ?_, ?_, ?_, ?_, ?_, ?_⟩
  · intro create project_id region cluster_name
    simp only [cluster_toolkit]
    split
    · left; rfl
    · right; exact ⟨_, rfl⟩
  · intro env provider
    simp only [list_clusters]
    split
    · left; rfl
    · right; exact ⟨_, rfl⟩
  · intro env provider cluster_name
    simp only [get_cluster]
    split
    · left; rfl
    · right; exact ⟨_, rfl⟩
  · intro env model_name replicas
    rfl
  · intro env provider recommender_id
    simp only [list_recommendations]
    split
    · left; rfl
    · right; exact ⟨_, rfl⟩
  · intro env list_entries query limit
    simp only [query_logs]
    split
    · left; rfl
    · right; exact ⟨_, rfl⟩
  · intro log_type
    rw [log_schema_cases log_type]
    split_ifs
    · left; rfl
    · left; rfl
    · left; rfl
    · right; exact ⟨_, rfl⟩
  · intro env bootstrap api cluster_name
    simp only [list_namespaces]
    split
    · right; exact ⟨_, rfl⟩
    · split
      · left; rfl
      · right; exact ⟨_, rfl⟩
  · intro env bootstrap api cluster_name ns
    simp only [get_pods]
    split
    · right; exact ⟨_, rfl⟩
    · split
      · left; rfl
      · right; exact ⟨_, rfl⟩

/-- Claim C7 counterexample: it is not the case that after the shutdown
handler runs every task of the loop is in (or even requested into) cancelled
state — a task that is already done is skipped by the handler and stays
uncancelled. -/
theorem c7_counterexample :
    ¬ (∀ tasks : List PyTask, ∀ t ∈ shutdown tasks, t.cancel_requested = true) := by
  intro h
  have hm := h [{ done := true, cancel_requested := false }]
    { done := true, cancel_requested := false } (by decide)
  simp at hm

/-- Claim C7 (amended): on a termination signal the shutdown handler
immediately requests cancellation of every not-yet-done task registered with
the loop (no grace period) and leaves already-done tasks untouched; the main
loop is then closed without an unhandled fault when the run terminates by
cancellation or keyboard interrupt. -/
theorem c7_amended_shutdown_cancels_pending :
    (∀ (tasks : List PyTask) (i : Nat) (t : PyTask), tasks[i]? = some t →
      (t.done = false →
        (shutdown tasks)[i]? = some { t with cancel_requested := true }) ∧
      (t.done = true → (shutdown tasks)[i]? = some t)) ∧
    main_exit RunOutcome.cancelled_error = { loop_closed := true, unhandled := none } ∧
    main_exit RunOutcome.keyboard_interrupt = { loop_closed := true, unhandled := none } := by
  refine ⟨?_, rfl, rfl⟩
  intro tasks i t h
  constructor
  · intro hd
    simp [shutdown, List.getElem?_map, h, hd, PyTask.cancel]
  · intro hd
    simp [shutdown, List.getElem?_map, h, hd]

/-- Witness for the amended C7 on a concrete two-task loop: the pending task
gets a cancellation request, the done task is untouched. -/
theorem c7_amended_shutdown_cancels_pending_witness :
    (shutdown [{ done := false, cancel_requested := false },
               { done := true, cancel_requested := false }])[0]? =
      some { done := false, cancel_requested := true } ∧
    (shutdown [{ done := false, cancel_requested := false },
               { done := true, cancel_requested := false }])[1]? =
      some { done := true, cancel_requested := false } := by
  constructor
  · exact (c7_amended_shutdown_cancels_pending.1
      [{ done := false, cancel_requested := false }, { done := true, cancel_requested := false }]
      0 { done := false, cancel_requested := false } rfl).1 rfl
  · exact (c7_amended_shutdown_cancels_pending.1
      [{ done := false, cancel_requested := false }, { done := true, cancel_requested := false }]
      1 { done := true, cancel_requested := false } rfl).2 rfl

end Server
